import Mathlib

/-!
# Verification of the storage helper of univ-rank-scraper

A shallow embedding of `src/common.py`: the module constant `DB_PATH`, the
scoped connection accessor `connect_db(dry_run)` (a `@contextmanager`
generator), and the schema routine `_create_schema(db)`, which executes

  CREATE TABLE IF NOT EXISTS rankings (
      contest NOT NULL,
      year INTEGER NOT NULL,
      rank INTEGER NOT NULL,
      univ NOT NULL,
      score INTEGER NOT NULL,
      penalty INTEGER,
      PRIMARY KEY (contest, year, univ)
  )

against an SQLite connection.  The embedding models

* SQLite values, column declarations, table schemas and table contents;
* the semantics of `CREATE TABLE IF NOT EXISTS` and of `INSERT` under the
  declared NOT NULL and PRIMARY KEY constraints (default ON CONFLICT ABORT:
  a violated constraint raises and leaves the table unchanged);
* the control flow of the `connect_db` generator as an event trace
  (connection opened, schema created, handle yielded, connection closed),
  with failure injection for the three points at which the Python code can
  raise: `sqlite3.connect`, `db.execute` in `_create_schema`, and the
  caller's `with`-block body;
* the data flow of a session: a world holding the contents of the single
  on-disk store at `DB_PATH`, an in-memory store per `dry_run` session, and
  the committed state written back when a persistent session ends.
-/

namespace UnivRankScraper

/-- An SQLite storage value: NULL, an integer, or a text string.  (SQLite
also has REAL and BLOB storage classes; the rankings schema and the claims
only involve NULL, INTEGER and TEXT, so the embedding restricts to these.) -/
inductive SqlValue
  | null
  | int (n : Int)
  | text (s : String)
deriving Repr, DecidableEq

/-- A column declaration: its name, its declared type (`none` when the
source leaves the column untyped, as for `contest` and `univ`), and whether
`NOT NULL` is declared. -/
structure Column where
  name : String
  declaredType : Option String
  notNull : Bool
deriving Repr, DecidableEq

/-- The declared shape of a table: its name, its columns in declaration
order, and the column names of its PRIMARY KEY. -/
structure TableSchema where
  name : String
  columns : List Column
  primaryKey : List String
deriving Repr, DecidableEq

/-- A stored row, positionally matching the table's column list. -/
abbrev Row := List SqlValue

/-- A table: its declared schema together with its current rows. -/
structure Table where
  schema : TableSchema
  rows : List Row
deriving Repr, DecidableEq

/-- A database: its tables. -/
abbrev DB := List Table

/-- The schema of the `rankings` table exactly as the CREATE TABLE
statement in `_create_schema` (src/common.py lines 21-28) declares it:
`contest` untyped NOT NULL, `year INTEGER NOT NULL`, `rank INTEGER NOT
NULL`, `univ` untyped NOT NULL, `score INTEGER NOT NULL`, `penalty INTEGER`
(nullable), PRIMARY KEY (contest, year, univ). -/
def rankingsSchema : TableSchema :=
  { name := "rankings"
    columns :=
      [ { name := "contest", declaredType := none, notNull := true }
      , { name := "year", declaredType := some "INTEGER", notNull := true }
      , { name := "rank", declaredType := some "INTEGER", notNull := true }
      , { name := "univ", declaredType := none, notNull := true }
      , { name := "score", declaredType := some "INTEGER", notNull := true }
      , { name := "penalty", declaredType := some "INTEGER", notNull := false } ]
    primaryKey := ["contest", "year", "univ"] }

/-- Whether the database already contains a table of the given name
(the `IF NOT EXISTS` test of `CREATE TABLE IF NOT EXISTS`). -/
def hasTable (db : DB) (n : String) : Bool :=
  db.any fun t => t.schema.name == n

/-- `CREATE TABLE IF NOT EXISTS`: when a table of that name already exists
the statement does nothing (whatever that table's shape); otherwise it adds
a new empty table with the given schema. -/
def createTableIfNotExists (db : DB) (ts : TableSchema) : DB :=
  if hasTable db ts.name then db else db ++ [{ schema := ts, rows := [] }]

/-- `_create_schema(db)` of src/common.py lines 20-29: executes
`CREATE TABLE IF NOT EXISTS rankings (...)` with the schema above. -/
def create_schema (db : DB) : DB :=
  createTableIfNotExists db rankingsSchema

/-- The error an insert can raise: SQLite's `IntegrityError`, raised when a
NOT NULL or PRIMARY KEY constraint is violated. -/
inductive SqlError
  | constraintViolation
deriving Repr, DecidableEq

/-- The projection of a row onto the table's PRIMARY KEY columns, in key
order. -/
def pkProj (ts : TableSchema) (r : Row) : List SqlValue :=
  ts.primaryKey.filterMap fun k =>
    ((ts.columns.zip r).find? fun p => p.1.name == k).map fun p => p.2

/-- Whether a row satisfies every declared NOT NULL constraint. -/
def notNullOk (ts : TableSchema) (r : Row) : Bool :=
  (ts.columns.zip r).all fun p => !p.1.notNull || p.2 != SqlValue.null

/-- `INSERT` of one row under the default ON CONFLICT ABORT resolution: a
NULL in a NOT NULL column or a duplicate PRIMARY KEY projection raises
`IntegrityError`; otherwise the row is appended.  A column omitted from an
INSERT statement receives NULL (the schema declares no DEFAULT clauses), so
an insert that omits a column is the insert of a row with `SqlValue.null`
at that position. -/
def insertRow (t : Table) (r : Row) : Except SqlError Table :=
  if ¬ notNullOk t.schema r then .error .constraintViolation
  else if t.rows.any fun r0 => pkProj t.schema r0 == pkProj t.schema r then
    .error .constraintViolation
  else .ok { t with rows := t.rows ++ [r] }

/-- An insert together with the table it leaves behind: on a constraint
violation the statement aborts and the table is unchanged. -/
def applyInsert (t : Table) (r : Row) : Table × Option SqlError :=
  match insertRow t r with
  | .ok t2 => (t2, none)
  | .error e => (t, some e)

/-! ## The control flow of `connect_db`

`connect_db` (src/common.py lines 12-17) is a `@contextmanager` generator:

    db = sqlite3.connect(":memory:" if dry_run else DB_PATH)
    _create_schema(db)
    yield db
    db.close()

An exception raised inside the caller's `with` block is re-raised at the
`yield`; the generator has no try/finally, so the exception propagates out
of the generator and `db.close()` is not executed.  The trace model below
records the events of one invocation and injects failure at the three
points where the Python code can raise. -/

/-- An event of one `connect_db` invocation, in the order the source can
produce it: the connection handle is opened by `sqlite3.connect`, the
schema statement completes, the handle is yielded to the caller's block,
the handle is closed by `db.close()`. -/
inductive Ev
  | opened
  | schemaDone
  | yielded
  | closed
deriving Repr, DecidableEq

/-- How one `connect_db` invocation can fail: `sqlite3.connect` raises
(store unavailable), `db.execute` in `_create_schema` raises, or the
caller's `with`-block body raises. -/
inductive PyError
  | connectError
  | schemaError
  | blockError
deriving Repr, DecidableEq

/-- The event trace and outcome of one `connect_db(dry_run)` invocation,
following the generator's control flow line by line.  `connectFails` and
`schemaFails` inject environment failures at `sqlite3.connect` and at the
`db.execute` inside `_create_schema`; `blockFails` makes the caller's
`with`-block body raise.  There is no try/finally around the `yield`, so
on `blockFails` the exception propagates and `Ev.closed` never occurs. -/
def connect_db_run (connectFails schemaFails blockFails : Bool) :
    List Ev × Option PyError :=
  if connectFails then ([], some .connectError)
  else if schemaFails then ([.opened], some .schemaError)
  else if blockFails then ([.opened, .schemaDone, .yielded], some .blockError)
  else ([.opened, .schemaDone, .yielded, .closed], none)

/-! ## The data flow of a session

`DB_PATH` (src/common.py line 9) is
`os.path.join(os.path.dirname(os.path.abspath(__file__)), "db.sqlite")`:
a module constant derived from the installation directory of the component,
computed once at import; `connect_db` accepts no path argument.  A
`dry_run` session connects to `":memory:"`, a fresh private in-memory
database; a persistent session connects to the file at `DB_PATH`. -/

/-- `DB_PATH` as a function of the component's installation directory
(the directory of the source file): `os.path.join(dir, "db.sqlite")`. -/
def DB_PATH (installDir : String) : String :=
  installDir ++ "/" ++ "db.sqlite"

/-- What `sqlite3.connect` is pointed at: the private in-memory store, or
the file at some path. -/
inductive Target
  | memory
  | file (path : String)
deriving Repr, DecidableEq

/-- The first argument of `sqlite3.connect` in `connect_db`:
`":memory:" if dry_run else DB_PATH`.  The caller supplies only `dry_run`;
the file path is always the module constant `DB_PATH`. -/
def connectTarget (installDir : String) (dry_run : Bool) : Target :=
  if dry_run then .memory else .file (DB_PATH installDir)

/-- The world outside one session: the contents of the single on-disk
store at `DB_PATH`.  (An in-memory store is created empty per session and
never outlives it, so it is no part of the persistent world.) -/
structure World where
  fileDB : DB
deriving Repr, DecidableEq

/-- The database a session's block receives: `sqlite3.connect` opens the
fresh empty in-memory store (`dry_run`) or the file store, and
`_create_schema` has run on it before the `yield`. -/
def sessionInitialDB (dry_run : Bool) (w : World) : DB :=
  create_schema (if dry_run then [] else w.fileDB)

/-- The data flow of one `connect_db(dry_run)` session around a caller
block.  The block maps the database it was yielded to either an error
(an exception propagating out of the `with` body) or the database state it
has committed by the end of the block.  A `dry_run` session's store is
discarded either way; a persistent session's committed state is the new
contents of the file at `DB_PATH`. -/
def connect_db_data {E : Type} (dry_run : Bool) (block : DB → Except E DB)
    (w : World) : Except E Unit × World :=
  match block (sessionInitialDB dry_run w) with
  | .error e => (.error e, w)
  | .ok db2 => (.ok (), if dry_run then w else { fileDB := db2 })

/-- A Ranking Record as the positional row of an INSERT that supplies all
six columns: `(contest, year, rank, univ, score, penalty)`. -/
def rankingRow (c : String) (y k : Int) (u : String) (s : Int)
    (p : SqlValue) : Row :=
  [SqlValue.text c, SqlValue.int y, SqlValue.int k, SqlValue.text u,
   SqlValue.int s, p]

/-- Modelled from the spec: the contracted table shape of spec §6
("`contest`, `year` INTEGER, `rank` INTEGER, `univ`, `score` INTEGER,
`penalty` INTEGER NULLABLE; primary key on `(contest, year, univ)`"),
each of the first five NOT NULL per §3 and §8, with `contest` and `univ`
left untyped per §9, and no other columns or constraints.  Written from
the spec's words, to be compared with `rankingsSchema`, which is written
from the source. -/
def rankingsContractSchema : TableSchema :=
  { name := "rankings"
    columns :=
      [ { name := "contest", declaredType := none, notNull := true }
      , { name := "year", declaredType := some "INTEGER", notNull := true }
      , { name := "rank", declaredType := some "INTEGER", notNull := true }
      , { name := "univ", declaredType := none, notNull := true }
      , { name := "score", declaredType := some "INTEGER", notNull := true }
      , { name := "penalty", declaredType := some "INTEGER", notNull := false } ]
    primaryKey := ["contest", "year", "univ"] }

/-- A concrete Ranking Record row, used by the witnesses: the spec §8
end-to-end row `("ICPC", 2023, 1, "MIT", 500, NULL)`. -/
def demoRow : Row := rankingRow "ICPC" 2023 1 "MIT" 500 SqlValue.null

/-- A concrete database: the `rankings` table holding `demoRow`. -/
def demoDB : DB := [{ schema := rankingsSchema, rows := [demoRow] }]

/-- A concrete session block that commits `demoDB`. -/
def demoBlock : DB → Except Unit DB := fun _ => Except.ok demoDB

/-! ## Theorems -/

/-- C4: schema creation is idempotent.  Running `_create_schema` a second
time against a store it has already initialized changes nothing (the
schema, and the whole database, are identical) and, being total, never
errors. -/
theorem create_schema_idempotent (db : DB) :
    create_schema (create_schema db) = create_schema db := by
  unfold create_schema createTableIfNotExists
  by_cases h : hasTable db rankingsSchema.name
  · simp [h]
  · have h2 : hasTable (db ++ [{ schema := rankingsSchema, rows := [] }])
        rankingsSchema.name = true := by
      simp [hasTable]
    simp [h, h2]

/-- C6: the table materialized by `_create_schema` has exactly the
contracted shape of the spec: same table name, same six columns with the
same declared types and NOT NULL constraints in the same order, the same
primary key, and nothing else. -/
theorem rankings_schema_matches_contract :
    rankingsSchema = rankingsContractSchema := rfl

/-- C9: `CREATE TABLE IF NOT EXISTS` does not reconcile schemas.  When a
table named "rankings" already exists in the store — whatever its shape —
`_create_schema` leaves the whole database, that table included, exactly
as it is. -/
theorem create_schema_keeps_existing_table (db : DB)
    (h : hasTable db "rankings" = true) :
    create_schema db = db := by
  unfold create_schema createTableIfNotExists
  have hn : rankingsSchema.name = "rankings" := rfl
  rw [hn, h]
  simp

/-- Witness for C9: a pre-existing "rankings" table with a single untyped
nullable column `foo`, no primary key, and one row — a shape different
from the contract in every respect — is left exactly as it is. -/
theorem create_schema_keeps_existing_table_witness :
    create_schema
        [{ schema := { name := "rankings"
                       columns := [{ name := "foo", declaredType := some "TEXT", notNull := false }]
                       primaryKey := [] }
           rows := [[SqlValue.int 7]] }]
      = [{ schema := { name := "rankings"
                       columns := [{ name := "foo", declaredType := some "TEXT", notNull := false }]
                       primaryKey := [] }
           rows := [[SqlValue.int 7]] }] :=
  create_schema_keeps_existing_table _ (by decide)

/-- Counterexample to C1 as stated: with the connection opened and the
schema created, an error raised inside the scoped block propagates out of
the `connect_db` generator at the `yield`; there is no try/finally, so
`db.close()` never runs — the trace contains `opened` but no `closed`, and
an open handle remains after the block exits. -/
theorem connect_db_leaks_handle_on_block_error :
    Ev.opened ∈ (connect_db_run false false true).1 ∧
    Ev.closed ∉ (connect_db_run false false true).1 ∧
    (connect_db_run false false true).2 = some PyError.blockError := by
  decide

/-- C1 (amended): the connection is closed exactly when the invocation
runs to completion — connect succeeds, schema creation succeeds, and the
scoped block completes normally.  When an error is raised inside the block
(or during schema creation) after the handle is opened, `db.close()` is
skipped and the handle remains open. -/
theorem connect_db_closes_only_on_normal_exit (cf sf bf : Bool) :
    (Ev.closed ∈ (connect_db_run cf sf bf).1 ↔
      cf = false ∧ sf = false ∧ bf = false) ∧
    (cf = false → Ev.opened ∈ (connect_db_run cf sf bf).1) := by
  cases cf <;> cases sf <;> cases bf <;> decide

/-- C2: whenever a handle is yielded, the trace begins with `opened`, then
`schemaDone`, then `yielded` — schema creation runs strictly before the
handle is handed out; if the connection open or the schema creation fails,
no handle is ever yielded and the failure surfaces to the caller; and when
both succeed a usable handle is yielded. -/
theorem connect_db_schema_before_yield (cf sf bf : Bool) :
    (Ev.yielded ∈ (connect_db_run cf sf bf).1 →
      (connect_db_run cf sf bf).1.take 3 = [Ev.opened, Ev.schemaDone, Ev.yielded]) ∧
    ((cf = true ∨ sf = true) →
      Ev.yielded ∉ (connect_db_run cf sf bf).1 ∧
      ((connect_db_run cf sf bf).2 = some PyError.connectError ∨
       (connect_db_run cf sf bf).2 = some PyError.schemaError)) ∧
    (cf = false → sf = false → Ev.yielded ∈ (connect_db_run cf sf bf).1) := by
  cases cf <;> cases sf <;> cases bf <;> decide

/-- C3: in a store initialized by this component, once a record has been
inserted, inserting a second record whose `(contest, year, univ)`
projection equals the first one's fails with a constraint violation, and
the table — the first record's row, its score and penalty included — is
exactly as it was after the first insert: the second record never
overwrites the first. -/
theorem duplicate_key_insert_rejected (t : Table) (r1 r2 : Row) (t1 : Table)
    (ht : t.schema = rankingsSchema)
    (h1 : insertRow t r1 = Except.ok t1)
    (hpk : pkProj rankingsSchema r2 = pkProj rankingsSchema r1) :
    applyInsert t1 r2 = (t1, some SqlError.constraintViolation) ∧
    t1.rows = t.rows ++ [r1] := by
  unfold insertRow at h1
  split_ifs at h1 with hnn hdup
  injection h1 with h1
  subst h1
  refine ⟨?_, rfl⟩
  have hins : insertRow { t with rows := t.rows ++ [r1] } r2
      = Except.error SqlError.constraintViolation := by
    unfold insertRow
    have hany : ((t.rows ++ [r1]).any fun r0 =>
        pkProj ({ t with rows := t.rows ++ [r1] } : Table).schema r0
          == pkProj ({ t with rows := t.rows ++ [r1] } : Table).schema r2) = true := by
      rw [List.any_append]
      have h3 : (([r1].any fun r0 =>
          pkProj ({ t with rows := t.rows ++ [r1] } : Table).schema r0
            == pkProj ({ t with rows := t.rows ++ [r1] } : Table).schema r2)) = true := by
        simp only [List.any_cons, List.any_nil, Bool.or_false]
        show (pkProj t.schema r1 == pkProj t.schema r2) = true
        rw [ht, hpk, beq_self_eq_true]
      rw [h3, Bool.or_true]
    by_cases hnn2 : notNullOk ({ t with rows := t.rows ++ [r1] } : Table).schema r2
    · simp [hnn2, hany]
    · simp [hnn2]
  simp [applyInsert, hins]

/-- Witness for C3: after inserting `("ICPC", 2023, 1, "MIT", 500, NULL)`
into a fresh store, inserting `("ICPC", 2023, 2, "MIT", 400, 10)` — the
same key with a different rank, score and penalty — is rejected with a
constraint violation and the stored table still holds exactly the first
record. -/
theorem duplicate_key_insert_rejected_witness :
    applyInsert { schema := rankingsSchema, rows := [rankingRow "ICPC" 2023 1 "MIT" 500 SqlValue.null] }
        (rankingRow "ICPC" 2023 2 "MIT" 400 (SqlValue.int 10))
      = ({ schema := rankingsSchema, rows := [rankingRow "ICPC" 2023 1 "MIT" 500 SqlValue.null] },
         some SqlError.constraintViolation) ∧
    ({ schema := rankingsSchema, rows := [rankingRow "ICPC" 2023 1 "MIT" 500 SqlValue.null] } : Table).rows
      = ({ schema := rankingsSchema, rows := [] } : Table).rows
          ++ [rankingRow "ICPC" 2023 1 "MIT" 500 SqlValue.null] :=
  duplicate_key_insert_rejected
    { schema := rankingsSchema, rows := [] }
    (rankingRow "ICPC" 2023 1 "MIT" 500 SqlValue.null)
    (rankingRow "ICPC" 2023 2 "MIT" 400 (SqlValue.int 10))
    { schema := rankingsSchema, rows := [rankingRow "ICPC" 2023 1 "MIT" 500 SqlValue.null] }
    rfl rfl rfl

/-- C5: in a store initialized by this component, an insert that supplies
NULL for (or, equivalently, omits) any of `contest`, `year`, `rank`,
`univ` or `score` fails with a constraint violation — so nothing is
stored — while an insert that supplies all five and omits `penalty`
(i.e. leaves it NULL) succeeds, provided its key is not already taken. -/
theorem nonnull_enforcement (t : Table) (c y r u s p : SqlValue)
    (ht : t.schema = rankingsSchema) :
    ((c = SqlValue.null ∨ y = SqlValue.null ∨ r = SqlValue.null ∨
      u = SqlValue.null ∨ s = SqlValue.null) →
      insertRow t [c, y, r, u, s, p] = Except.error SqlError.constraintViolation) ∧
    (c ≠ SqlValue.null → y ≠ SqlValue.null → r ≠ SqlValue.null →
     u ≠ SqlValue.null → s ≠ SqlValue.null →
      (∀ r0 ∈ t.rows,
        pkProj rankingsSchema r0 ≠ pkProj rankingsSchema [c, y, r, u, s, SqlValue.null]) →
      insertRow t [c, y, r, u, s, SqlValue.null]
        = Except.ok { t with rows := t.rows ++ [[c, y, r, u, s, SqlValue.null]] }) := by
  constructor
  · intro hnull
    have hnn : notNullOk t.schema [c, y, r, u, s, p] = false := by
      rw [ht]
      rcases hnull with h | h | h | h | h <;> subst h <;>
        simp [notNullOk, rankingsSchema]
    unfold insertRow
    simp [hnn]
  · intro hc hy hr hu hs hfresh
    have hnn : notNullOk t.schema [c, y, r, u, s, SqlValue.null] = true := by
      rw [ht]
      simp [notNullOk, rankingsSchema, hc, hy, hr, hu, hs]
    have hany : (t.rows.any fun r0 =>
        pkProj t.schema r0 == pkProj t.schema [c, y, r, u, s, SqlValue.null]) = false := by
      rw [ht]
      refine List.any_eq_false.mpr ?_
      intro r0 hr0
      simp only [Bool.not_eq_true]
      exact beq_eq_false_iff_ne.mpr (hfresh r0 hr0)
    unfold insertRow
    simp [hnn, hany]

/-- Witness for C5, exercising both halves with their hypotheses
genuinely satisfied: into a fresh store, an insert that supplies NULL for
`contest` is rejected with a constraint violation (the theorem applied at
`c := NULL`, the failure disjunct discharged), and an insert of
`("ICPC", 2023, 1, "MIT", 500)` with `penalty` omitted (NULL) succeeds
and stores exactly that row (the theorem applied at `c := "ICPC"`, every
non-NULL and freshness hypothesis discharged). -/
theorem nonnull_enforcement_witness :
    insertRow { schema := rankingsSchema, rows := [] }
        [SqlValue.null, SqlValue.int 2023, SqlValue.int 1, SqlValue.text "MIT",
         SqlValue.int 500, SqlValue.null]
      = Except.error SqlError.constraintViolation ∧
    insertRow { schema := rankingsSchema, rows := [] }
        [SqlValue.text "ICPC", SqlValue.int 2023, SqlValue.int 1, SqlValue.text "MIT",
         SqlValue.int 500, SqlValue.null]
      = Except.ok { schema := rankingsSchema
                    rows := [[SqlValue.text "ICPC", SqlValue.int 2023, SqlValue.int 1,
                              SqlValue.text "MIT", SqlValue.int 500, SqlValue.null]] } :=
  ⟨(nonnull_enforcement { schema := rankingsSchema, rows := [] } SqlValue.null
      (SqlValue.int 2023) (SqlValue.int 1) (SqlValue.text "MIT") (SqlValue.int 500)
      SqlValue.null rfl).1 (Or.inl rfl),
   (nonnull_enforcement { schema := rankingsSchema, rows := [] } (SqlValue.text "ICPC")
      (SqlValue.int 2023) (SqlValue.int 1) (SqlValue.text "MIT") (SqlValue.int 500)
      SqlValue.null rfl).2 (by decide) (by decide) (by decide) (by decide) (by decide)
      (by intro r0 hr0; cases hr0)⟩

/-- C10: the schema places no uniqueness constraint on `rank`: two records
with the same contest, year and rank but different universities are both
accepted. -/
theorem duplicate_rank_accepted (c u1 u2 : String) (y k s1 s2 : Int)
    (h : u1 ≠ u2) :
    insertRow { schema := rankingsSchema, rows := [] }
        (rankingRow c y k u1 s1 SqlValue.null)
      = Except.ok { schema := rankingsSchema
                    rows := [rankingRow c y k u1 s1 SqlValue.null] } ∧
    insertRow { schema := rankingsSchema
                rows := [rankingRow c y k u1 s1 SqlValue.null] }
        (rankingRow c y k u2 s2 SqlValue.null)
      = Except.ok { schema := rankingsSchema
                    rows := [rankingRow c y k u1 s1 SqlValue.null,
                             rankingRow c y k u2 s2 SqlValue.null] } := by
  constructor
  · rfl
  · have hpkne : (pkProj rankingsSchema (rankingRow c y k u1 s1 SqlValue.null)
        == pkProj rankingsSchema (rankingRow c y k u2 s2 SqlValue.null)) = false := by
      refine beq_eq_false_iff_ne.mpr ?_
      show ([SqlValue.text c, SqlValue.int y, SqlValue.text u1] : List SqlValue)
          ≠ [SqlValue.text c, SqlValue.int y, SqlValue.text u2]
      simp [h]
    unfold insertRow
    simp only [List.any_cons, List.any_nil, Bool.or_false, hpkne]
    rfl

/-- Witness for C10: `("ICPC", 2023, 1, "MIT", 500)` and
`("ICPC", 2023, 1, "CMU", 500)` — identical rank within the same
contest-year — are both stored. -/
theorem duplicate_rank_accepted_witness :
    insertRow { schema := rankingsSchema, rows := [] }
        (rankingRow "ICPC" 2023 1 "MIT" 500 SqlValue.null)
      = Except.ok { schema := rankingsSchema
                    rows := [rankingRow "ICPC" 2023 1 "MIT" 500 SqlValue.null] } ∧
    insertRow { schema := rankingsSchema
                rows := [rankingRow "ICPC" 2023 1 "MIT" 500 SqlValue.null] }
        (rankingRow "ICPC" 2023 1 "CMU" 500 SqlValue.null)
      = Except.ok { schema := rankingsSchema
                    rows := [rankingRow "ICPC" 2023 1 "MIT" 500 SqlValue.null,
                             rankingRow "ICPC" 2023 1 "CMU" 500 SqlValue.null] } :=
  duplicate_rank_accepted "ICPC" "MIT" "CMU" 2023 1 500 500 (by decide)

/-- C7: ephemeral (`dry_run`) sessions are private and transient.  An
ephemeral session leaves the world untouched (its store is discarded when
it ends), a second session run after it behaves exactly as it would have
without it (nothing the first inserted is visible to the second), and the
database an ephemeral session's block receives is always the fresh store
holding only the empty `rankings` table, whatever happened before. -/
theorem ephemeral_session_isolation {E F : Type} (w : World)
    (bA : DB → Except E DB) (bB : DB → Except F DB) :
    (connect_db_data true bA w).2 = w ∧
    connect_db_data true bB (connect_db_data true bA w).2
      = connect_db_data true bB w ∧
    sessionInitialDB true ((connect_db_data true bA w).2) = create_schema [] := by
  have hW : (connect_db_data true bA w).2 = w := by
    unfold connect_db_data
    cases bA (sessionInitialDB true w) <;> rfl
  exact ⟨hW, by rw [hW], by rw [hW]; rfl⟩

/-- C8: persistent sessions share the one fixed store.  `sqlite3.connect`
in persistent mode is always pointed at the file at `DB_PATH`, a constant
derived from the installation directory — `connect_db` takes no path from
the caller — and after a persistent session commits `dbA` and ends, the
file holds exactly `dbA`, the next persistent session's block receives
`create_schema dbA`, and every table committed by the earlier session
(all its rows included) is present in that later session's view. -/
theorem persistent_session_visibility {E : Type} (installDir : String)
    (w : World) (bA : DB → Except E DB) (dbA : DB)
    (h : bA (sessionInitialDB false w) = Except.ok dbA) :
    connectTarget installDir false = Target.file (DB_PATH installDir) ∧
    (connect_db_data false bA w).2 = { fileDB := dbA } ∧
    sessionInitialDB false (connect_db_data false bA w).2 = create_schema dbA ∧
    ∀ tb ∈ dbA, tb ∈ sessionInitialDB false (connect_db_data false bA w).2 := by
  have hW : (connect_db_data false bA w).2 = { fileDB := dbA } := by
    unfold connect_db_data
    rw [h]
    rfl
  refine ⟨rfl, hW, by rw [hW]; rfl, ?_⟩
  intro tb htb
  rw [hW]
  show tb ∈ create_schema dbA
  unfold create_schema createTableIfNotExists
  split
  · exact htb
  · exact List.mem_append_left _ htb

/-- Witness for C8: a session against an empty file store commits a
`rankings` table holding `("ICPC", 2023, 1, "MIT", 500, NULL)`; the file
then holds it, and the next persistent session sees that table and row. -/
theorem persistent_session_visibility_witness :
    connectTarget "/opt/scraper" false = Target.file (DB_PATH "/opt/scraper") ∧
    (connect_db_data false demoBlock { fileDB := [] }).2 = { fileDB := demoDB } ∧
    sessionInitialDB false (connect_db_data false demoBlock { fileDB := [] }).2
      = create_schema demoDB ∧
    ∀ tb ∈ demoDB,
      tb ∈ sessionInitialDB false (connect_db_data false demoBlock { fileDB := [] }).2 :=
  persistent_session_visibility "/opt/scraper" { fileDB := [] } demoBlock demoDB rfl

end UnivRankScraper
